import Mathlib

/-!
Verification development for the LuminaLib repository.

The repository is a browser book/journal discovery assistant.  The parts with
checkable logic are:
  - the local persistence model (favorites, journals, search history,
    language and theme preferences) in src/App.tsx;
  - the audio narration (playback) controller in src/App.tsx
    (a variant lives in src/unnamed/part_001);
  - the capture-to-transcription hand-off in src/App.tsx and
    src/unnamed/part_000 (transcribeAudio);
  - the Content Service client searchBookDetails in src/unnamed/part_000
    (two versions of services/geminiService.ts).

Each definition below is a direct translation of the corresponding source
function.  JavaScript runtime behaviour that the source relies on
(JSON.parse, string truthiness, Blob concatenation, toLowerCase) is modelled
explicitly and named after the platform primitive it stands for.
-/

namespace LuminaLib

/-! ## Data model (src/types.ts) -/

/-- BookLocation.type in src/types.ts: a two-value union. -/
inductive LocationType where
  | library
  | bookstore
deriving DecidableEq, Repr

/-- BookLocation from src/types.ts. -/
structure BookLocation where
  name : String
  address : Option String
  uri : String
  locType : LocationType
deriving DecidableEq, Repr

/-- SoftcopyLink from src/types.ts. -/
structure SoftcopyLink where
  title : String
  uri : String
deriving DecidableEq, Repr

/-- BookResult from src/types.ts. -/
structure BookResult where
  title : String
  author : String
  summary : String
  authorBio : Option String
  awards : Option (List String)
  locations : List BookLocation
  softcopies : List SoftcopyLink
  coverImageUrl : Option String
deriving DecidableEq, Repr

/-- HistoryEntry from src/types.ts.  Timestamps are Date.now() values,
modelled as Nat. -/
structure HistoryEntry where
  id : String
  query : String
  timestamp : Nat
  result : BookResult
deriving DecidableEq, Repr

/-- Journal from src/types.ts. -/
structure Journal where
  id : String
  name : String
  bookTitles : List String
  createdAt : Nat
deriving DecidableEq, Repr

/-! ## Search history insertion (src/App.tsx, handleSearch lines 280-288)

On a successful search the code runs
  setHistory(prev => [entry, ...prev].slice(0, 50))
i.e. the new entry is prepended and the list is truncated to 50. -/

/-- One history insertion: prepend the entry, keep the first 50
(Array.prototype.slice(0, 50) is List.take 50). -/
def addHistoryEntry (entry : HistoryEntry) (prev : List HistoryEntry) :
    List HistoryEntry :=
  (entry :: prev).take 50

/-- A sequence of searches, oldest first, each inserted with
addHistoryEntry. -/
def insertAllHistory (entries : List HistoryEntry) (h0 : List HistoryEntry) :
    List HistoryEntry :=
  entries.foldl (fun h e => addHistoryEntry e h) h0

/-! ## Favorites and journals (src/App.tsx) -/

/-- JavaScript String.prototype.toLowerCase as used for case-insensitive
title identity: lower-case every character (written over the character
list, which the kernel can evaluate). -/
def jsLower (s : String) : String := String.mk (s.toList.map Char.toLower)

/-- Combined favorites/journals state touched by toggleFavorite and
deleteJournal. -/
structure LibState where
  favorites : List BookResult
  journals : List Journal
deriving DecidableEq, Repr

/-- toggleFavorite from src/App.tsx (lines 297-309).  If a favorite with the
same lowercased title exists, the book's title is filtered out of every
journal's bookTitles (case-insensitively) and the favorite is removed;
otherwise the book is prepended to favorites and journals are untouched. -/
def toggleFavorite (book : BookResult) (st : LibState) : LibState :=
  match st.favorites.find? (fun f => jsLower f.title = jsLower book.title) with
  | some _ =>
      { favorites :=
          st.favorites.filter
            (fun f => !(jsLower f.title = jsLower book.title)),
        journals :=
          st.journals.map (fun j =>
            { j with bookTitles :=
                (j.bookTitles.filter
                  (fun t => !(jsLower t = jsLower book.title))) }) }
  | none =>
      { st with favorites := book :: st.favorites }

/-- deleteJournal from src/App.tsx (lines 324-329), the path taken when the
confirm() dialog is accepted: journals with the given id are filtered out;
favorites are not touched (the function only calls setJournals; the
activeJournalId view state it also resets is not part of the data model). -/
def deleteJournal (id : String) (st : LibState) : LibState :=
  { st with journals := st.journals.filter (fun j => !(j.id = id)) }

/-- assignBookToJournal from src/App.tsx (lines 331-338).  journalId is
string | null in the source (null moves the book to Uncategorized); every
journal first drops the title (strict string equality here, unlike
toggleFavorite), and the target journal (j.id === journalId) appends it. -/
def assignBookToJournal (bookTitle : String) (journalId : Option String)
    (js : List Journal) : List Journal :=
  js.map (fun j =>
    let cleanBooks := j.bookTitles.filter (fun t => !(t = bookTitle))
    if some j.id = journalId then
      { j with bookTitles := cleanBooks ++ [bookTitle] }
    else
      { j with bookTitles := cleanBooks })

/-! ## Local persistence loads (src/App.tsx, lines 122-147)

The useState initializers read localStorage and parse.  A missing key is
localStorage.getItem returning null, modelled as stored = none.  JSON.parse
is the platform JSON parser; it throws on malformed input, modelled by an
executable parser returning Option.  The number grammar keeps the syntactic
shape (fraction/exponent accepted, leading-zero restriction not modelled)
and truncates the numeric value to its integer part, which no claim
inspects. -/

/-- A parsed JSON value (result of JSON.parse). -/
inductive Json where
  | null
  | bool (b : Bool)
  | num (i : Int)
  | str (s : String)
  | arr (elems : List Json)
  | obj (fields : List (String × Json))

/-- JSON insignificant whitespace. -/
def jsonSkipWs (cs : List Char) : List Char :=
  cs.dropWhile (fun c => c == ' ' || c == '\t' || c == '\n' || c == '\r')

/-- Digits to a natural number. -/
def digitsToNat (ds : List Char) : Nat :=
  ds.foldl (fun n c => n * 10 + (c.toNat - 48)) 0

/-- Hex digit value, if the character is one. -/
def hexDigitVal (c : Char) : Option Nat :=
  if c.isDigit then some (c.toNat - 48)
  else if 'a' ≤ c && c ≤ 'f' then some (c.toNat - 87)
  else if 'A' ≤ c && c ≤ 'F' then some (c.toNat - 55)
  else none

/-- JSON string body after the opening quote; handles the escape forms of
the JSON grammar.  Returns the string and the input after the closing
quote. -/
def parseJsonStr (fuel : Nat) (cs : List Char) (acc : List Char) :
    Option (String × List Char) :=
  match fuel with
  | 0 => none
  | fuel + 1 =>
    match cs with
    | [] => none
    | c :: rest =>
      if c = '"' then some (String.mk acc.reverse, rest)
      else if c = '\\' then
        match rest with
        | [] => none
        | e :: rest2 =>
          if e = '"' then parseJsonStr fuel rest2 ('"' :: acc)
          else if e = '\\' then parseJsonStr fuel rest2 ('\\' :: acc)
          else if e = '/' then parseJsonStr fuel rest2 ('/' :: acc)
          else if e = 'b' then parseJsonStr fuel rest2 (Char.ofNat 8 :: acc)
          else if e = 'f' then parseJsonStr fuel rest2 (Char.ofNat 12 :: acc)
          else if e = 'n' then parseJsonStr fuel rest2 ('\n' :: acc)
          else if e = 'r' then parseJsonStr fuel rest2 ('\r' :: acc)
          else if e = 't' then parseJsonStr fuel rest2 ('\t' :: acc)
          else if e = 'u' then
            match rest2 with
            | h1 :: h2 :: h3 :: h4 :: rest3 =>
              match hexDigitVal h1, hexDigitVal h2,
                    hexDigitVal h3, hexDigitVal h4 with
              | some a, some b, some c2, some d =>
                parseJsonStr fuel rest3
                  (Char.ofNat (((a * 16 + b) * 16 + c2) * 16 + d) :: acc)
              | _, _, _, _ => none
            | _ => none
          else none
      else parseJsonStr fuel rest (c :: acc)

/-- JSON number, starting at a '-' or a digit. -/
def parseJsonNum (cs : List Char) : Option (Json × List Char) :=
  let p := match cs with
           | '-' :: r => (true, r)
           | _ => (false, cs)
  let neg := p.1
  let cs1 := p.2
  let ds := cs1.takeWhile Char.isDigit
  if ds.length = 0 then none
  else
    let cs2 := cs1.drop ds.length
    let n := digitsToNat ds
    let i : Int := if neg then -(Int.ofNat n) else Int.ofNat n
    let afterFrac : Option (List Char) :=
      match cs2 with
      | '.' :: r =>
        let fs := r.takeWhile Char.isDigit
        if fs.length = 0 then none else some (r.drop fs.length)
      | _ => some cs2
    match afterFrac with
    | none => none
    | some cs3 =>
      let afterExp : Option (List Char) :=
        match cs3 with
        | e :: r =>
          if e = 'e' || e = 'E' then
            let r2 := match r with
                      | s :: rr => if s = '+' || s = '-' then rr else r
                      | [] => r
            let es := r2.takeWhile Char.isDigit
            if es.length = 0 then none else some (r2.drop es.length)
          else some cs3
        | [] => some cs3
      match afterExp with
      | none => none
      | some cs4 => some (Json.num i, cs4)

mutual

/-- JSON value; fuel decreases on every mutual call. -/
def parseJsonValue (fuel : Nat) (cs : List Char) :
    Option (Json × List Char) :=
  match fuel with
  | 0 => none
  | fuel + 1 =>
    match jsonSkipWs cs with
    | [] => none
    | c :: rest =>
      if c = 'n' then
        match rest with
        | 'u' :: 'l' :: 'l' :: r => some (Json.null, r)
        | _ => none
      else if c = 't' then
        match rest with
        | 'r' :: 'u' :: 'e' :: r => some (Json.bool true, r)
        | _ => none
      else if c = 'f' then
        match rest with
        | 'a' :: 'l' :: 's' :: 'e' :: r => some (Json.bool false, r)
        | _ => none
      else if c = '"' then
        match parseJsonStr (rest.length + 1) rest [] with
        | some (s, r) => some (Json.str s, r)
        | none => none
      else if c = '[' then
        match jsonSkipWs rest with
        | ']' :: r => some (Json.arr [], r)
        | r2 =>
          match parseJsonElems fuel r2 with
          | some (es, r) => some (Json.arr es, r)
          | none => none
      else if c = Char.ofNat 123 then
        match jsonSkipWs rest with
        | c2 :: r =>
          if c2 = Char.ofNat 125 then some (Json.obj [], r)
          else
            match parseJsonFields fuel (c2 :: r) with
            | some (fs, r2) => some (Json.obj fs, r2)
            | none => none
        | [] => none
      else if c = '-' || c.isDigit then
        parseJsonNum (c :: rest)
      else none

/-- Comma-separated array elements up to the closing bracket. -/
def parseJsonElems (fuel : Nat) (cs : List Char) :
    Option (List Json × List Char) :=
  match fuel with
  | 0 => none
  | fuel + 1 =>
    match parseJsonValue fuel cs with
    | none => none
    | some (v, r) =>
      match jsonSkipWs r with
      | ',' :: r2 =>
        match parseJsonElems fuel r2 with
        | some (vs, r3) => some (v :: vs, r3)
        | none => none
      | ']' :: r2 => some ([v], r2)
      | _ => none

/-- Comma-separated object members up to the closing brace. -/
def parseJsonFields (fuel : Nat) (cs : List Char) :
    Option (List (String × Json) × List Char) :=
  match fuel with
  | 0 => none
  | fuel + 1 =>
    match jsonSkipWs cs with
    | '"' :: r =>
      match parseJsonStr (r.length + 1) r [] with
      | none => none
      | some (k, r2) =>
        match jsonSkipWs r2 with
        | ':' :: r3 =>
          match parseJsonValue fuel r3 with
          | none => none
          | some (v, r4) =>
            match jsonSkipWs r4 with
            | ',' :: r5 =>
              match parseJsonFields fuel r5 with
              | some (fs, r6) => some ((k, v) :: fs, r6)
              | none => none
            | c2 :: r5 =>
              if c2 = Char.ofNat 125 then some ([(k, v)], r5)
              else none
            | [] => none
        | _ => none
    | _ => none

end

/-- JSON.parse: a complete parse of the whole input (only trailing
whitespace allowed), or failure. -/
def jsonParse (s : String) : Option Json :=
  match parseJsonValue (s.length + 1) s.toList with
  | some (v, rest) => if (jsonSkipWs rest).isEmpty then some v else none
  | none => none

/-- The shared shape of the favorites/journals/history initializers
(src/App.tsx lines 122-135):
  saved ? JSON.parse(saved) : []
A missing key (and, by string falsiness, an empty string) yields the empty
array; otherwise JSON.parse runs and its throw is the error case. -/
def loadPersistedList (stored : Option String) : Except Unit Json :=
  match stored with
  | none => Except.ok (Json.arr [])
  | some s =>
    if s = "" then Except.ok (Json.arr [])
    else
      match jsonParse s with
      | some v => Except.ok v
      | none => Except.error ()

/-- Initializer for the lumina-favorites key. -/
def loadFavorites (stored : Option String) : Except Unit Json :=
  loadPersistedList stored

/-- Initializer for the lumina-journals key. -/
def loadJournals (stored : Option String) : Except Unit Json :=
  loadPersistedList stored

/-- Initializer for the lumina-history key. -/
def loadHistory (stored : Option String) : Except Unit Json :=
  loadPersistedList stored

/-- Initializer for the lumina-lang key (src/App.tsx line 142):
  (localStorage.getItem('lumina-lang') as Language) || 'English'
The cast is erased at runtime; || falls back on null and on the empty
string. -/
def loadLanguage (stored : Option String) : String :=
  match stored with
  | none => "English"
  | some s => if s = "" then "English" else s

/-- Initializer for the lumina-theme key (src/App.tsx lines 143-147):
  if (saved) return saved === 'dark';
  return window.matchMedia('(prefers-color-scheme: dark)').matches;
-/
def loadTheme (stored : Option String) (systemPrefersDark : Bool) : Bool :=
  match stored with
  | none => systemPrefersDark
  | some s => if s = "" then systemPrefersDark else s == "dark"

/-! ## Playback controller (src/App.tsx, lines 149-264)

The controller state is the React flags isPlayingAudio / isAudioPaused /
isAudioLoading, the refs isAudioLockedRef, activeAudioSourceRef and
audioContextRef, plus ghost counters for verification: activeSources counts
AudioBufferSourceNode objects that have been started and neither stopped
nor ended (the source keeps at most one reachable through the ref, but a
started node keeps playing when the ref is overwritten), startedTotal
counts source.start() calls, pending counts speakText requests in flight
(each request is an uncancelled await inside startAudioPlayback), and
alertCount counts alert() calls (none occur in the audio functions).

Execution is the browser event loop: the synchronous prefix of each handler
runs atomically; an await is a suspension point.  startAudioPlayback
suspends at speakText and again at decodeAudioData; the code between the
two awaits is the synchronous continuation modelled inside the resolve
event, whose outcome says whether speakText returned audio and whether the
decode succeeded. -/

structure AudioState where
  locked : Bool
  playing : Bool
  paused : Bool
  loading : Bool
  srcRef : Bool
  ctxExists : Bool
  ctxSuspended : Bool
  pending : Nat
  activeSources : Nat
  startedTotal : Nat
  alertCount : Nat
deriving DecidableEq, Repr

/-- The state before any audio interaction. -/
def initAudioState : AudioState :=
  { locked := false, playing := false, paused := false, loading := false,
    srcRef := false, ctxExists := false, ctxSuspended := false,
    pending := 0, activeSources := 0, startedTotal := 0, alertCount := 0 }

/-- stopAudio from src/App.tsx (lines 188-202): stop the source behind the
ref if any (the try/catch tolerates an already-stopped node), null the ref,
resume a suspended context, clear the three flags, release the lock.  The
in-flight speakText request, if any, is not cancelled. -/
def stopAudio (s : AudioState) : AudioState :=
  { s with
    activeSources := if s.srcRef then s.activeSources - 1 else s.activeSources,
    srcRef := false,
    ctxSuspended := if s.ctxExists && s.ctxSuspended then false
                    else s.ctxSuspended,
    playing := false, paused := false, loading := false, locked := false }

/-- stopAudio from src/unnamed/part_001 (lines 124-133): same, minus the
context resume. -/
def stopAudioScout (s : AudioState) : AudioState :=
  { s with
    activeSources := if s.srcRef then s.activeSources - 1 else s.activeSources,
    srcRef := false,
    playing := false, paused := false, loading := false, locked := false }

/-- pauseAudio (lines 204-209): suspend the context only when it exists and
is running. -/
def pauseAudio (s : AudioState) : AudioState :=
  if s.ctxExists && !s.ctxSuspended then
    { s with ctxSuspended := true, paused := true }
  else s

/-- resumeAudio (lines 211-216): resume the context only when it exists and
is suspended. -/
def resumeAudio (s : AudioState) : AudioState :=
  if s.ctxExists && s.ctxSuspended then
    { s with ctxSuspended := false, paused := false }
  else s

/-- The synchronous prefix of startAudioPlayback (lines 228-232): take the
lock, show the loading flag, issue the speakText request. -/
def startAudioRequest (s : AudioState) : AudioState :=
  { s with locked := true, loading := true, pending := s.pending + 1 }

/-- handleAudioToggle (lines 218-226). -/
def handleAudioToggle (text : Option String) (s : AudioState) : AudioState :=
  if s.locked then s
  else if s.playing then
    (if s.paused then resumeAudio s else pauseAudio s)
  else
    match text with
    | some _ => startAudioRequest s
    | none => s

/-- Outcome of one in-flight startAudioPlayback request at its resumption:
speakText returned undefined, or decodeAudioData threw, or audio decoded. -/
inductive AudioOutcome where
  | noAudio
  | decodeFail
  | ok
deriving DecidableEq, Repr

/-- The continuation of startAudioPlayback after its awaits (lines
233-263).  noAudio: the else branch clears loading and the lock.
decodeFail: the context was created/resumed before the decode; the catch
clears loading and the lock.  ok: after the decode the code re-checks the
(global) lock and returns if it is free; otherwise it creates and starts a
source, overwriting the ref.  A resolve without a pending request cannot
occur and leaves the state unchanged. -/
def resolveAudio (outcome : AudioOutcome) (s : AudioState) : AudioState :=
  if s.pending = 0 then s
  else
    let s := { s with pending := s.pending - 1 }
    match outcome with
    | AudioOutcome.noAudio =>
        { s with loading := false, locked := false }
    | AudioOutcome.decodeFail =>
        { s with ctxExists := true, ctxSuspended := false,
                 loading := false, locked := false }
    | AudioOutcome.ok =>
        let s := { s with ctxExists := true, ctxSuspended := false }
        if !s.locked then s
        else
          { s with srcRef := true,
                   loading := false, playing := true, paused := false,
                   activeSources := s.activeSources + 1,
                   startedTotal := s.startedTotal + 1 }

/-- The onended callback of the active source firing on natural completion
(lines 244-249). -/
def audioEnded (s : AudioState) : AudioState :=
  if s.activeSources = 0 then s
  else
    { s with activeSources := s.activeSources - 1,
             playing := false, paused := false, srcRef := false,
             locked := false }

/-- One event-loop step of the playback controller. -/
inductive AudioEvent where
  | toggle (text : Option String)
  | stop
  | resolve (outcome : AudioOutcome)
  | ended
deriving Repr

/-- Dispatch one event. -/
def stepAudio (s : AudioState) (e : AudioEvent) : AudioState :=
  match e with
  | AudioEvent.toggle text => handleAudioToggle text s
  | AudioEvent.stop => stopAudio s
  | AudioEvent.resolve outcome => resolveAudio outcome s
  | AudioEvent.ended => audioEnded s

/-- Run an event sequence from the initial state. -/
def runAudio (es : List AudioEvent) : AudioState :=
  es.foldl stepAudio initAudioState

/-- The Idle configuration of the spec: no flags, no lock, no source, no
request in flight. -/
def AudioIdle (s : AudioState) : Prop :=
  s.playing = false ∧ s.paused = false ∧ s.loading = false ∧
  s.locked = false ∧ s.srcRef = false ∧ s.activeSources = 0 ∧ s.pending = 0

instance (s : AudioState) : Decidable (AudioIdle s) := by
  unfold AudioIdle; infer_instance

/-! ## Capture to transcription hand-off (src/App.tsx lines 364-393,
src/unnamed/part_000 transcribeAudio) -/

/-- A recorded chunk is a byte string; new Blob(chunks) concatenates, so
the blob size (and with it the clip duration) is the summed chunk sizes. -/
def blobSize (chunks : List (List Nat)) : Nat :=
  (chunks.map List.length).sum

/-- transcribeAudio response handling (src/unnamed/part_000, lines 168-180
and 380-392): response.text?.trim() || "" — an absent text gives the empty
string, otherwise the trimmed text with the empty-after-trim case falling
back to "". -/
def transcribeAudioResult (respText : Option String) : String :=
  match respText with
  | none => ""
  | some t => if t.trim == "" then "" else t.trim

/-- The mediaRecorder.onstop continuation (src/App.tsx lines 373-389): the
buffered chunks become one blob, the blob is read back as base64 and sent
to transcribeAudio; only a truthy — that is, non-empty — transcription is
fed to handleSearch.  The result pairs the size of the blob handed to the
transcription call with the query handed to search, if any. -/
def onRecordingStop (chunks : List (List Nat)) (respText : Option String) :
    Nat × Option String :=
  let audioBlobSize := blobSize chunks
  let transcription := transcribeAudioResult respText
  (audioBlobSize,
   if !(transcription == "") then some transcription else none)

/-! ## Content Service client: searchBookDetails
(src/unnamed/part_000; two versions of services/geminiService.ts live
there, returns at lines 98-108 and 310-320)

The network responses are inputs: the grounding chunk lists of the maps and
search calls (the source defaults an absent list to [] with || []), and the
text of the metadata call.  The JavaScript runtime behaviour the function
leans on — truthiness, template-literal stringification, substring test,
encodeURIComponent — is modelled below. -/

/-- A grounding chunk payload (chunk.maps or chunk.web): both title and uri
may be absent. -/
structure GroundingPayload where
  title : Option String
  uri : Option String
deriving DecidableEq, Repr

/-- One grounding chunk; the source filters on the presence of .maps
(first call) or .web (second call). -/
structure GroundingChunk where
  maps : Option GroundingPayload
  web : Option GroundingPayload
deriving DecidableEq, Repr

/-- The three model responses consumed by searchBookDetails. -/
structure GenContentResponses where
  mapsChunks : List GroundingChunk
  searchChunks : List GroundingChunk
  infoText : Option String
deriving Repr

/-- JavaScript truthiness of a JSON value. -/
def jsTruthy : Json → Bool
  | Json.null => false
  | Json.bool b => b
  | Json.num i => !(i == 0)
  | Json.str s => !(s == "")
  | Json.arr _ => true
  | Json.obj _ => true

/-- Truthiness where absence (undefined) is falsy. -/
def jsTruthyOpt (o : Option Json) : Bool :=
  match o with
  | none => false
  | some v => jsTruthy v

/-- Property read on a parsed JSON value: object lookup with the JSON
last-duplicate-wins rule; any other value has no such property (a
destructuring of JSON null would throw in the source, a case no claim
reaches). -/
def jGetField (j : Json) (k : String) : Option Json :=
  match j with
  | Json.obj fs => fs.foldl (fun acc f => if f.1 == k then some f.2 else acc) none
  | _ => none

mutual

/-- JavaScript template-literal stringification of a JSON value. -/
def jsToString : Json → String
  | Json.null => "null"
  | Json.bool true => "true"
  | Json.bool false => "false"
  | Json.num i => toString i
  | Json.str s => s
  | Json.arr xs => String.intercalate "," (jsToStringList xs)
  | Json.obj _ => "[object Object]"

/-- Stringification of array elements. -/
def jsToStringList : List Json → List String
  | [] => []
  | x :: xs => jsToString x :: jsToStringList xs

end

/-- Stringification where absence prints as undefined does. -/
def jsToStringOpt (o : Option Json) : String :=
  match o with
  | none => "undefined"
  | some v => jsToString v

/-- String.prototype.includes: substring test. -/
def strContainsSub (hay needle : String) : Bool :=
  (List.range (hay.toList.length + 1)).any
    (fun i => needle.toList.isPrefixOf (hay.toList.drop i))

/-- UTF-8 bytes of a character, as naturals. -/
def utf8Bytes (c : Char) : List Nat :=
  let n := c.toNat
  if n < 128 then [n]
  else if n < 2048 then [192 + n / 64, 128 + n % 64]
  else if n < 65536 then [224 + n / 4096, 128 + (n / 64) % 64, 128 + n % 64]
  else [240 + n / 262144, 128 + (n / 4096) % 64, 128 + (n / 64) % 64,
        128 + n % 64]

/-- Bytes encodeURIComponent leaves unescaped: alphanumerics and
- _ . ! ~ * ( ) and the apostrophe. -/
def uriUnreservedByte (b : Nat) : Bool :=
  (48 ≤ b && b ≤ 57) || (65 ≤ b && b ≤ 90) || (97 ≤ b && b ≤ 122) ||
  b == 45 || b == 95 || b == 46 || b == 33 || b == 126 || b == 42 ||
  b == 39 || b == 40 || b == 41

/-- Upper-case hex digit. -/
def hexUpper (n : Nat) : Char :=
  if n < 10 then Char.ofNat (48 + n) else Char.ofNat (55 + n)

/-- Percent-encoding of one byte. -/
def encByte (b : Nat) : List Char :=
  if uriUnreservedByte b then [Char.ofNat b]
  else ['%', hexUpper (b / 16), hexUpper (b % 16)]

/-- encodeURIComponent: percent-encode the UTF-8 bytes outside the
unreserved set. -/
def encodeURIComponent (s : String) : String :=
  String.mk (((s.toList.map utf8Bytes).flatten.map encByte).flatten)

/-- The runtime shape of the object searchBookDetails returns: title and
coverImageUrl are built as strings; the fields destructured from the
parsed metadata JSON hold whatever values arrived (the TypeScript
BookResult annotation is erased at runtime). -/
structure ServiceBookResult where
  title : String
  author : Option Json
  summary : Option Json
  authorBio : Option Json
  awards : Option Json
  locations : List BookLocation
  softcopies : List SoftcopyLink
  coverImageUrl : String

/-- The catch fallback of the first version (part_000 lines 82-88). -/
def fallbackBookInfoV1 : Json :=
  Json.obj [("author", Json.str "Unknown Author"),
            ("summary", Json.str "No summary found."),
            ("isbn", Json.str ""),
            ("authorBio", Json.str "No biography available."),
            ("awards", Json.arr [])]

/-- The catch fallback of the second version (part_000 lines 295-301). -/
def fallbackBookInfoV2 : Json :=
  Json.obj [("author", Json.str "Various Contributors"),
            ("summary", Json.str "Search details unavailable."),
            ("isbn", Json.str ""),
            ("authorBio", Json.str "Information pending."),
            ("awards", Json.arr [])]

/-- JSON.parse(text || "\x7b\x7d") with the catch producing the given
fallback object. -/
def parseBookInfo (infoText : Option String) (fallback : Json) : Json :=
  let src := match infoText with
             | none => "\x7b\x7d"
             | some t => if t = "" then "\x7b\x7d" else t
  (jsonParse src).getD fallback

/-- searchBookDetails, first version (src/unnamed/part_000 lines 6-108).
The source reads chunk.maps.uri and chunk.web.uri without a default; the
getD "" stands for that direct read (an absent uri would throw there, a
case no claim reaches). -/
def searchBookDetailsV1 (query : String) (resp : GenContentResponses) :
    ServiceBookResult :=
  let locations :=
    (resp.mapsChunks.filterMap GroundingChunk.maps).map (fun m =>
      { name := m.title.getD "Library/Store",
        address := none,
        uri := m.uri.getD "",
        locType := if strContainsSub (m.uri.getD "") "library"
                   then LocationType.library else LocationType.bookstore })
  let softcopies :=
    (resp.searchChunks.filterMap GroundingChunk.web).map (fun w =>
      { title := w.title.getD "E-Book Source",
        uri := w.uri.getD "" : SoftcopyLink })
  let bookInfo := parseBookInfo resp.infoText fallbackBookInfoV1
  let author := jGetField bookInfo "author"
  let summary := jGetField bookInfo "summary"
  let isbn := jGetField bookInfo "isbn"
  let authorBio := jGetField bookInfo "authorBio"
  let awards := jGetField bookInfo "awards"
  let coverImageUrl :=
    if jsTruthyOpt isbn then
      "https://covers.openlibrary.org/b/isbn/" ++ jsToStringOpt isbn ++
        "-L.jpg"
    else
      "https://images.placeholders.dev/?width=400&height=600&text=" ++
        encodeURIComponent query ++ "&bgColor=%23f3f4f6&textColor=%239ca3af"
  { title := query, author := author, summary := summary,
    authorBio := authorBio, awards := awards,
    locations := locations, softcopies := softcopies,
    coverImageUrl := coverImageUrl }

/-- searchBookDetails, second version (src/unnamed/part_000 lines 218-320):
uris take || "" defaults, the type test lowercases first, author and
summary get || fallbacks, and the cover is used only for an isbn without a
dash (a non-string isbn would make isbn.includes throw in the source; no
claim reaches that case). -/
def searchBookDetailsV2 (query : String) (resp : GenContentResponses) :
    ServiceBookResult :=
  let locations :=
    (resp.mapsChunks.filterMap GroundingChunk.maps).map (fun m =>
      { name := m.title.getD "Library/Store",
        address := none,
        uri := m.uri.getD "",
        locType := if strContainsSub (jsLower (m.uri.getD "")) "library"
                   then LocationType.library else LocationType.bookstore })
  let softcopies :=
    (resp.searchChunks.filterMap GroundingChunk.web).map (fun w =>
      { title := w.title.getD "Digital Archive",
        uri := w.uri.getD "" : SoftcopyLink })
  let bookInfo := parseBookInfo resp.infoText fallbackBookInfoV2
  let author := jGetField bookInfo "author"
  let summary := jGetField bookInfo "summary"
  let isbn := jGetField bookInfo "isbn"
  let authorBio := jGetField bookInfo "authorBio"
  let awards := jGetField bookInfo "awards"
  let coverCond := match isbn with
                   | some (Json.str s) => !(s == "") && !(strContainsSub s "-")
                   | _ => false
  let coverImageUrl :=
    if coverCond then
      "https://covers.openlibrary.org/b/isbn/" ++ jsToStringOpt isbn ++
        "-L.jpg"
    else
      "https://images.placeholders.dev/?width=400&height=600&text=" ++
        encodeURIComponent query ++ "&bgColor=%231e293b&textColor=%23fbbf24"
  { title := query,
    author := if jsTruthyOpt author then author
              else some (Json.str "Unknown"),
    summary := if jsTruthyOpt summary then summary
               else some (Json.str "No summary available."),
    authorBio := authorBio, awards := awards,
    locations := locations, softcopies := softcopies,
    coverImageUrl := coverImageUrl }

/-! ## Concrete sample data for instantiating the theorems -/

/-- A minimal BookResult used by concrete instantiations. -/
def sampleBook : BookResult :=
  { title := "", author := "", summary := "", authorBio := none,
    awards := none, locations := [], softcopies := [],
    coverImageUrl := none }

/-- A family of pairwise distinct history entries (distinguished by
timestamp). -/
def sampleEntry (i : Nat) : HistoryEntry :=
  { id := "", query := "", timestamp := i, result := sampleBook }

/-! ## Theorems -/

/-- take of an already-truncated right part: truncating B first does not
change the truncation of the concatenation. -/
theorem take_append_take {α : Type} (n : Nat) (A B : List α) :
    (A ++ B.take n).take n = (A ++ B).take n := by
  rw [List.take_append_eq_append_take, List.take_append_eq_append_take,
      List.take_take]
  have h : min (n - A.length) n = n - A.length :=
    Nat.min_eq_left (Nat.sub_le n A.length)
  rw [h]

/-- Closed form of a sequence of history insertions: the history is the
truncated reverse of the insertion order (on top of a small enough initial
history). -/
theorem insertAllHistory_take (es : List HistoryEntry) :
    ∀ h0 : List HistoryEntry, h0.length ≤ 50 →
      insertAllHistory es h0 = (es.reverse ++ h0).take 50 := by
  induction es with
  | nil =>
      intro h0 hl
      simp [insertAllHistory, List.take_of_length_le hl]
  | cons e es ih =>
      intro h0 hl
      have step : insertAllHistory (e :: es) h0 =
          insertAllHistory es (addHistoryEntry e h0) := rfl
      rw [step, ih (addHistoryEntry e h0)
        (by unfold addHistoryEntry; exact List.length_take_le _ _)]
      unfold addHistoryEntry
      rw [take_append_take]
      simp

/-- C2: after every insert the history holds at most 50 entries; inserting
51 pairwise distinct entries leaves exactly the 50 most recent, newest
first, and the oldest entry is gone. -/
theorem c2_history_capped_at_50 :
    (∀ (e : HistoryEntry) (h : List HistoryEntry),
        (addHistoryEntry e h).length ≤ 50)
    ∧ (∀ (e : HistoryEntry) (rest : List HistoryEntry),
        rest.length = 50 → e ∉ rest →
          insertAllHistory (e :: rest) [] = rest.reverse
          ∧ e ∉ insertAllHistory (e :: rest) []) := by
  constructor
  · intro e h
    exact List.length_take_le _ _
  · intro e rest hlen hmem
    have hins : insertAllHistory (e :: rest) [] = rest.reverse := by
      rw [insertAllHistory_take _ [] (by simp)]
      rw [List.append_nil, List.reverse_cons, List.take_append_eq_append_take]
      have h50 : rest.reverse.length = 50 := by simp [hlen]
      rw [List.take_of_length_le (le_of_eq h50), h50]
      simp
    refine ⟨hins, ?_⟩
    rw [hins, List.mem_reverse]
    exact hmem

/-- C2 witness: 51 distinct concrete entries. -/
theorem c2_history_capped_at_50_witness :
    insertAllHistory
      (sampleEntry 0 :: (List.range 50).map (fun i => sampleEntry (i + 1))) []
      = ((List.range 50).map (fun i => sampleEntry (i + 1))).reverse
    ∧ sampleEntry 0 ∉ insertAllHistory
      (sampleEntry 0 :: (List.range 50).map (fun i => sampleEntry (i + 1))) [] :=
  c2_history_capped_at_50.2 (sampleEntry 0)
    ((List.range 50).map (fun i => sampleEntry (i + 1)))
    (by simp) (by decide)

/-- After an assignment, a journal that is not the target never contains
the title, and the target contains it exactly once. -/
theorem assign_mem_characterization (b : String) (jid : Option String)
    (js : List Journal) :
    ∀ j ∈ assignBookToJournal b jid js,
      (¬(some j.id = jid) → b ∉ j.bookTitles)
      ∧ (some j.id = jid → j.bookTitles.count b = 1) := by
  intro j hj
  simp only [assignBookToJournal, List.mem_map] at hj
  obtain ⟨j0, hj0, rfl⟩ := hj
  by_cases hid : some j0.id = jid
  · rw [if_pos hid]
    refine ⟨fun hne => absurd hid hne, fun _ => ?_⟩
    rw [List.count_append]
    have hclean : b ∉ j0.bookTitles.filter (fun t => !(t = b)) := by
      intro hmem
      have h2 := (List.mem_filter.mp hmem).2
      simp at h2
    rw [List.count_eq_zero_of_not_mem hclean]
    simp
  · rw [if_neg hid]
    refine ⟨fun _ hmem => ?_, fun h => absurd h hid⟩
    have h2 := (List.mem_filter.mp hmem).2
    simp at h2

/-- Assignment does not change the journal ids (in particular not their
order or multiplicity). -/
theorem assign_ids_unchanged (b : String) (jid : Option String)
    (js : List Journal) :
    (assignBookToJournal b jid js).map Journal.id = js.map Journal.id := by
  unfold assignBookToJournal
  rw [List.map_map]
  apply List.map_congr_left
  intro j _
  by_cases hid : some j.id = jid <;> simp [hid]

/-- In a duplicate-free list of ids, at most one matches the target. -/
theorem countP_eq_target_le_one (jid : Option String) (ids : List String)
    (h : ids.Nodup) : ids.countP (fun i => decide (some i = jid)) ≤ 1 := by
  induction ids with
  | nil => simp
  | cons i ids ih =>
      rw [List.nodup_cons] at h
      rw [List.countP_cons]
      by_cases hi : some i = jid
      · have hz : ids.countP (fun i => decide (some i = jid)) = 0 := by
          rw [List.countP_eq_zero]
          intro a ha hpa
          have h1 : some a = jid := of_decide_eq_true hpa
          have h2 : a = i := Option.some_injective _ (h1.trans hi.symm)
          exact h.1 (h2 ▸ ha)
        rw [hz]
        simp [hi]
      · simp only [hi, decide_eq_true_eq, if_neg]
        simpa [hi] using ih h.2

/-- With pairwise distinct journal ids, at most one journal of the
post-assignment state contains the title. -/
theorem assign_countP_le_one (b : String) (jid : Option String)
    (js : List Journal) (hnd : (js.map Journal.id).Nodup) :
    (assignBookToJournal b jid js).countP
      (fun j => decide (b ∈ j.bookTitles)) ≤ 1 := by
  have hmono : (assignBookToJournal b jid js).countP
      (fun j => decide (b ∈ j.bookTitles))
      ≤ (assignBookToJournal b jid js).countP
        (fun j => decide (some j.id = jid)) := by
    apply List.countP_mono_left
    intro j hj hp
    have hchar := assign_mem_characterization b jid js j hj
    by_cases hid : some j.id = jid
    · simp [hid]
    · exact absurd (of_decide_eq_true hp) (hchar.1 hid)
  have hids : (assignBookToJournal b jid js).countP
      (fun j => decide (some j.id = jid))
      = ((assignBookToJournal b jid js).map Journal.id).countP
        (fun i => decide (some i = jid)) := by
    rw [List.countP_map]
    rfl
  have hfin : ((assignBookToJournal b jid js).map Journal.id).countP
      (fun i => decide (some i = jid)) ≤ 1 := by
    rw [assign_ids_unchanged]
    exact countP_eq_target_le_one jid _ hnd
  exact le_trans (le_of_le_of_eq hmono hids) hfin

/-- C3: with pairwise distinct journal ids, after assignBookToJournal the
title appears in at most one journal's bookTitles; it is gone from every
non-target journal and appears exactly once in the target. -/
theorem c3_title_in_at_most_one_journal (b : String) (jid : Option String)
    (js : List Journal) (hnd : (js.map Journal.id).Nodup) :
    (assignBookToJournal b jid js).countP
      (fun j => decide (b ∈ j.bookTitles)) ≤ 1
    ∧ (∀ j ∈ assignBookToJournal b jid js,
        ¬(some j.id = jid) → b ∉ j.bookTitles)
    ∧ (∀ j ∈ assignBookToJournal b jid js,
        some j.id = jid → j.bookTitles.count b = 1) :=
  ⟨assign_countP_le_one b jid js hnd,
   fun j hj => (assign_mem_characterization b jid js j hj).1,
   fun j hj => (assign_mem_characterization b jid js j hj).2⟩

/-- C3 witness: moving a title from journal A (which holds it) to journal B
leaves it in at most one journal. -/
theorem c3_title_in_at_most_one_journal_witness :
    (assignBookToJournal "Dune" (some "B")
      [{ id := "A", name := "Alpha", bookTitles := ["Dune", "Emma"],
         createdAt := 0 },
       { id := "B", name := "Beta", bookTitles := [], createdAt := 1 }]).countP
      (fun j => decide ("Dune" ∈ j.bookTitles)) ≤ 1 :=
  (c3_title_in_at_most_one_journal "Dune" (some "B")
    [{ id := "A", name := "Alpha", bookTitles := ["Dune", "Emma"],
       createdAt := 0 },
     { id := "B", name := "Beta", bookTitles := [], createdAt := 1 }]
    (by decide)).1

/-- C4: when the given book is already a favorite (case-insensitive title
match), toggleFavorite removes the title (case-insensitively) from every
journal's bookTitles, and removes the favorite itself. -/
theorem c4_remove_favorite_cascades (book : BookResult) (st : LibState)
    (hex : ∃ f ∈ st.favorites, jsLower f.title = jsLower book.title) :
    (∀ j ∈ (toggleFavorite book st).journals, ∀ t ∈ j.bookTitles,
        ¬(jsLower t = jsLower book.title))
    ∧ (∀ f ∈ (toggleFavorite book st).favorites,
        ¬(jsLower f.title = jsLower book.title)) := by
  obtain ⟨f0, hf0, ht0⟩ := hex
  cases hfind : st.favorites.find?
      (fun f => jsLower f.title = jsLower book.title) with
  | none =>
      exfalso
      have hnone := List.find?_eq_none.mp hfind f0 hf0
      simp [ht0] at hnone
  | some f1 =>
      constructor
      · intro j hj t ht
        simp only [toggleFavorite, hfind, List.mem_map] at hj
        obtain ⟨j0, hj0, rfl⟩ := hj
        have h2 := (List.mem_filter.mp ht).2
        simpa using h2
      · intro f hf
        simp only [toggleFavorite, hfind] at hf
        have h2 := (List.mem_filter.mp hf).2
        simpa using h2

/-- C4 witness: unfavoriting a case-variant of a title scrubs the variant
from a journal; the surviving entry differs case-insensitively. -/
theorem c4_remove_favorite_cascades_witness :
    ¬(jsLower "Emma" = jsLower "DUNE") :=
  (c4_remove_favorite_cascades
    { sampleBook with title := "DUNE" }
    { favorites := [{ sampleBook with title := "dune" }],
      journals := [{ id := "A", name := "Alpha",
                     bookTitles := ["Dune", "Emma"], createdAt := 0 }] }
    (by decide)).1
    { id := "A", name := "Alpha", bookTitles := ["Emma"], createdAt := 0 }
    (by decide) "Emma" (by decide)

/-- C5: stopAudio — in both versions — clears all playback flags, releases
the lock, drops the source ref from any state whatsoever, and is
idempotent: a second call leaves exactly the state of the first. -/
theorem c5_stop_idempotent_any_state (s : AudioState) :
    (stopAudio s).playing = false ∧ (stopAudio s).paused = false
    ∧ (stopAudio s).loading = false ∧ (stopAudio s).locked = false
    ∧ (stopAudio s).srcRef = false
    ∧ stopAudio (stopAudio s) = stopAudio s
    ∧ (stopAudioScout s).playing = false ∧ (stopAudioScout s).paused = false
    ∧ (stopAudioScout s).loading = false ∧ (stopAudioScout s).locked = false
    ∧ (stopAudioScout s).srcRef = false
    ∧ stopAudioScout (stopAudioScout s) = stopAudioScout s := by
  obtain ⟨lk, pl, pa, lo, sr, ce, cs, pe, ac, st, al⟩ := s
  simp only [stopAudio, stopAudioScout]
  cases sr <;> cases ce <;> cases cs <;> simp

/-- C7: a start request issued from Idle whose Content Service call returns
no audio, or whose decode fails, brings the controller back to Idle (flags
cleared, lock released, no source) and raises no user-facing alert. -/
theorem c7_service_failure_returns_idle (s : AudioState) (t : String)
    (h : AudioIdle s) :
    AudioIdle (stepAudio (stepAudio s (AudioEvent.toggle (some t)))
      (AudioEvent.resolve AudioOutcome.noAudio))
    ∧ AudioIdle (stepAudio (stepAudio s (AudioEvent.toggle (some t)))
      (AudioEvent.resolve AudioOutcome.decodeFail))
    ∧ (stepAudio (stepAudio s (AudioEvent.toggle (some t)))
      (AudioEvent.resolve AudioOutcome.noAudio)).alertCount = s.alertCount
    ∧ (stepAudio (stepAudio s (AudioEvent.toggle (some t)))
      (AudioEvent.resolve AudioOutcome.decodeFail)).alertCount
        = s.alertCount := by
  obtain ⟨h1, h2, h3, h4, h5, h6, h7⟩ := h
  obtain ⟨lk, pl, pa, lo, sr, ce, cs, pe, ac, st, al⟩ := s
  simp only at h1 h2 h3 h4 h5 h6 h7
  subst h1 h2 h3 h4 h5 h6 h7
  simp [stepAudio, handleAudioToggle, startAudioRequest, resolveAudio,
    AudioIdle]

/-- C7 witness: from the initial state with a concrete text. -/
theorem c7_service_failure_returns_idle_witness :
    AudioIdle (stepAudio (stepAudio initAudioState
      (AudioEvent.toggle (some "Dune. A summary.")))
      (AudioEvent.resolve AudioOutcome.noAudio)) :=
  (c7_service_failure_returns_idle initAudioState "Dune. A summary."
    (by decide)).1

/-- C1 (evaluation): in the rapid double-toggle scenario only one playback
ever starts; but the event sequence toggle, stop, toggle, then the two
in-flight requests resolving, ends with two simultaneously active audio
sources — stop releases the global lock without cancelling the in-flight
speakText request, and the post-decode guard re-checks the global lock
rather than this request's ownership of it. -/
theorem c1_lock_overlap_two_active_sources :
    (runAudio [AudioEvent.toggle (some "text one"),
      AudioEvent.toggle (some "text one"),
      AudioEvent.resolve AudioOutcome.ok]).startedTotal = 1
    ∧ (runAudio [AudioEvent.toggle (some "text one"),
      AudioEvent.stop,
      AudioEvent.toggle (some "text two"),
      AudioEvent.resolve AudioOutcome.ok,
      AudioEvent.resolve AudioOutcome.ok]).activeSources = 2 := by
  constructor <;> rfl

/-- C8: deleteJournal keeps favorites untouched; every journal with another
id survives unchanged (same id, name, bookTitles, createdAt), and the
survivors are exactly journals of the old state whose id differs. -/
theorem c8_delete_journal_frame (id : String) (st : LibState) :
    (deleteJournal id st).favorites = st.favorites
    ∧ (∀ j ∈ st.journals, ¬(j.id = id) → j ∈ (deleteJournal id st).journals)
    ∧ (∀ j ∈ (deleteJournal id st).journals,
        j ∈ st.journals ∧ ¬(j.id = id)) := by
  refine ⟨rfl, ?_, ?_⟩
  · intro j hj hne
    simp only [deleteJournal]
    rw [List.mem_filter]
    exact ⟨hj, by simpa using hne⟩
  · intro j hj
    simp only [deleteJournal] at hj
    rw [List.mem_filter] at hj
    exact ⟨hj.1, by simpa using hj.2⟩

/-- C8 witness: deleting journal A leaves journal B intact and the
favorites list unchanged. -/
theorem c8_delete_journal_frame_witness :
    { id := "B", name := "Beta", bookTitles := ["Emma"], createdAt := 1 }
      ∈ (deleteJournal "A"
        { favorites := [sampleBook],
          journals :=
            [{ id := "A", name := "Alpha", bookTitles := ["Dune"],
               createdAt := 0 },
             { id := "B", name := "Beta", bookTitles := ["Emma"],
               createdAt := 1 }] }).journals
    ∧ (deleteJournal "A"
        { favorites := [sampleBook],
          journals :=
            [{ id := "A", name := "Alpha", bookTitles := ["Dune"],
               createdAt := 0 },
             { id := "B", name := "Beta", bookTitles := ["Emma"],
               createdAt := 1 }] }).favorites = [sampleBook] :=
  ⟨(c8_delete_journal_frame "A" _).2.1 _ (by decide) (by decide),
   (c8_delete_journal_frame "A" _).1⟩

/-- C9: stopping a recording with zero captured chunks hands the
transcription call a zero-size blob; an absent response text transcribes to
the empty string; and whenever the transcription result is empty, no search
is triggered. -/
theorem c9_empty_transcription_no_search (chunks : List (List Nat))
    (respText : Option String)
    (hempty : transcribeAudioResult respText = "") :
    (onRecordingStop [] respText).1 = 0
    ∧ transcribeAudioResult none = ""
    ∧ (onRecordingStop chunks respText).2 = none := by
  refine ⟨rfl, rfl, ?_⟩
  simp [onRecordingStop, hempty]

/-- C9 witness: empty chunk list and an absent response text. -/
theorem c9_empty_transcription_no_search_witness :
    (onRecordingStop [] none).2 = none :=
  (c9_empty_transcription_no_search [] none rfl).2.2

/-- C10: in both versions of searchBookDetails, for every query and every
combination of Content Service responses, the returned title is exactly the
query string. -/
theorem c10_search_title_is_query (query : String)
    (resp : GenContentResponses) :
    (searchBookDetailsV1 query resp).title = query
    ∧ (searchBookDetailsV2 query resp).title = query :=
  ⟨rfl, rfl⟩

/-- C6 counterexample: a stored value that JSON.parse rejects makes the
favorites initializer throw instead of returning the empty-list default. -/
theorem c6_corrupt_favorites_throws :
    loadFavorites (some "\x7b") = Except.error ()
    ∧ ¬(loadFavorites (some "\x7b") = Except.ok (Json.arr [])) := by
  exact ⟨rfl, by intro h; exact Except.noConfusion h⟩

/-- C6 as amended: a missing key yields the type-appropriate default
(empty array for favorites, journals and history; English; the system
theme) without failing, and the language key never fails; but a corrupt
stored value is not tolerated everywhere: the JSON-backed keys throw on a
non-parseable value, and a corrupt theme string is read as light mode, not
as the system default. -/
theorem c6_load_missing_defaults :
    loadFavorites none = Except.ok (Json.arr [])
    ∧ loadJournals none = Except.ok (Json.arr [])
    ∧ loadHistory none = Except.ok (Json.arr [])
    ∧ loadLanguage none = "English"
    ∧ loadTheme none true = true
    ∧ loadTheme none false = false
    ∧ loadJournals (some "[not json") = Except.error ()
    ∧ loadHistory (some "\x7b\"broken\":") = Except.error ()
    ∧ loadLanguage (some "Klingon") = "Klingon"
    ∧ loadTheme (some "blue") true = false :=
  ⟨rfl, rfl, rfl, rfl, rfl, rfl, rfl, rfl, rfl, rfl⟩

end LuminaLib
